import Mathlib

/- Shallow embedding of the IRCamera_py repository: constants.py defines the
   IRFrameFilter and IRMappingMode enumerations, camera_controller.py defines
   the IRCameraController class. External collaborators (the WinRT capture
   backend, the OpenCV library, the clock and the filesystem) are modelled as
   explicit inputs and as lists of filesystem effects; Python object state is
   modelled as an explicit ControllerState record threaded through every
   method. Leading underscores of private Python methods are dropped because
   Lean reserves identifiers that begin with an underscore. -/

/-- Embedding of constants.IRFrameFilter, an enum with values 0, 1, 2. -/
inductive IRFrameFilter
  | NONE
  | RAW
  | ILLUMINATED
deriving DecidableEq

/-- Embedding of the .value attribute of the Python enum members. -/
def IRFrameFilter.value : IRFrameFilter → Nat
  | .NONE => 0
  | .RAW => 1
  | .ILLUMINATED => 2

/-- Embedding of list(IRFrameFilter), the member list in declaration order. -/
def IRFrameFilter.members : List IRFrameFilter := [.NONE, .RAW, .ILLUMINATED]

/-- Embedding of IRFrameFilter.next: members[(value + 1) % len(members)]. -/
def IRFrameFilter.next (m : IRFrameFilter) : IRFrameFilter :=
  IRFrameFilter.members.getD ((m.value + 1) % IRFrameFilter.members.length) IRFrameFilter.NONE

/-- Embedding of the display_name property of IRFrameFilter. -/
def IRFrameFilter.display_name : IRFrameFilter → String
  | .NONE => "OFF"
  | .RAW => "RAW"
  | .ILLUMINATED => "ILLUM"

/-- Embedding of constants.IRMappingMode, an enum with values 0..3. -/
inductive IRMappingMode
  | NONE
  | GREEN
  | HEAT
  | JET
deriving DecidableEq

/-- Embedding of the .value attribute of the Python enum members. -/
def IRMappingMode.value : IRMappingMode → Nat
  | .NONE => 0
  | .GREEN => 1
  | .HEAT => 2
  | .JET => 3

/-- Embedding of list(IRMappingMode), the member list in declaration order. -/
def IRMappingMode.members : List IRMappingMode := [.NONE, .GREEN, .HEAT, .JET]

/-- Embedding of IRMappingMode.next: members[(value + 1) % len(members)]. -/
def IRMappingMode.next (m : IRMappingMode) : IRMappingMode :=
  IRMappingMode.members.getD ((m.value + 1) % IRMappingMode.members.length) IRMappingMode.NONE

/-- A BGRA8 pixel of the canonical 4-channel interchange buffer. -/
structure BGRA where
  b : Nat
  g : Nat
  r : Nat
  a : Nat
deriving DecidableEq

/-- A BGR8 pixel, the 3-channel format handed to the video muxer. -/
structure BGR where
  b : Nat
  g : Nat
  r : Nat
deriving DecidableEq

/-- A frame is a row-major grid of BGRA pixels (the numpy array of shape
    height by width by 4 produced by convert_bitmap_to_frame). -/
abbrev Frame := List (List BGRA)

/-- The OpenCV primitives used by apply_color_mapping, treated as external
    pure pixel functions: BGRA-to-gray luminance and the HOT and JET lookup
    tables of cv2.applyColorMap. -/
structure CvOps where
  gray : BGRA → Nat
  hot : Nat → BGR
  jet : Nat → BGR

/-- Pixelwise action of cv2.cvtColor with code COLOR_BGRA2BGR. -/
def bgraToBgr (p : BGRA) : BGR := ⟨p.b, p.g, p.r⟩

/-- Embedding of cv2.cvtColor(frame, cv2.COLOR_BGRA2BGR). -/
def cvtColor_BGRA2BGR (f : Frame) : List (List BGR) :=
  f.map (fun row => row.map bgraToBgr)

/-- Pixelwise action of cv2.cvtColor with code COLOR_BGR2BGRA: the alpha
    channel is filled with 255. -/
def bgrToBgra (c : BGR) : BGRA := ⟨c.b, c.g, c.r, 255⟩

/-- Embedding of IRCameraController._apply_color_mapping. The mapping mode is
    passed explicitly (the Python method reads self._mapping_mode). NONE
    returns the frame unchanged; GREEN writes the luminance into the green
    channel of a zeroed frame with alpha 255; HEAT and JET apply the OpenCV
    colormap to the luminance and re-expand to BGRA. -/
def apply_color_mapping (cv : CvOps) (mode : IRMappingMode) (frame : Frame) : Frame :=
  if mode = IRMappingMode.NONE then frame
  else if mode = IRMappingMode.GREEN then
    frame.map (fun row => row.map (fun p => ⟨0, cv.gray p, 0, 255⟩))
  else if mode = IRMappingMode.HEAT then
    frame.map (fun row => row.map (fun p => bgrToBgra (cv.hot (cv.gray p))))
  else if mode = IRMappingMode.JET then
    frame.map (fun row => row.map (fun p => bgrToBgra (cv.jet (cv.gray p))))
  else frame

/-- Model of an open cv2.VideoWriter: its construction arguments plus the
    list of frames written so far. -/
structure VideoWriter where
  path : String
  fourcc : String
  fps : Int
  frame_size : Nat × Nat
  frames : List (List (List BGR))
deriving DecidableEq

/-- The mutable attribute state of one IRCameraController instance.
    media_capture and frame_reader are reduced to presence flags (their
    WinRT behaviour is external); the maxsize 2 frame queue is a list. -/
structure ControllerState where
  media_capture : Option Unit
  frame_reader : Option Unit
  running : Bool
  frame_queue : List Frame
  last_frame : Option Frame
  devices : List String
  current_device_index : Nat
  frame_width : Nat
  frame_height : Nat
  frame_filter : IRFrameFilter
  mapping_mode : IRMappingMode
  is_illuminated : Bool
  is_recording : Bool
  video_writer : Option VideoWriter
  video_path : Option String
deriving DecidableEq

/-- Embedding of IRCameraController.__init__. -/
def initState : ControllerState :=
  { media_capture := none
    frame_reader := none
    running := false
    frame_queue := []
    last_frame := none
    devices := []
    current_device_index := 0
    frame_width := 640
    frame_height := 480
    frame_filter := IRFrameFilter.NONE
    mapping_mode := IRMappingMode.NONE
    is_illuminated := false
    is_recording := false
    video_writer := none
    video_path := none }

/-- Filesystem side effects performed by take_photo and start_recording. -/
inductive FsEffect
  | makedirs (dir : String)
  | imwrite (path : String) (img : List (List BGR))
deriving DecidableEq

/-- Embedding of the frame_filter property setter. -/
def set_frame_filter (s : ControllerState) (v : IRFrameFilter) : ControllerState :=
  { s with frame_filter := v }

/-- Embedding of the mapping_mode property setter. -/
def set_mapping_mode (s : ControllerState) (v : IRMappingMode) : ControllerState :=
  { s with mapping_mode := v }

/-- Embedding of find_ir_cameras: the backend hands back a device list, each
    entry a display name paired with whether it has an infrared source; the
    controller keeps the infrared ones. -/
def find_ir_cameras (s : ControllerState) (discovered : List (String × Bool)) : ControllerState :=
  { s with devices := (discovered.filter (fun d => d.2)).map (fun d => d.1) }

/-- Embedding of IRCameraController._should_display_frame, with the filter
    mode and sticky illumination flag passed explicitly (the Python method
    reads self._frame_filter and self._is_illuminated). The final catch-all
    branch of the Python code is kept. -/
def should_display_frame (flt : IRFrameFilter) (illuminated : Bool) : Bool :=
  if flt = IRFrameFilter.NONE then true
  else if flt = IRFrameFilter.RAW then !illuminated
  else if flt = IRFrameFilter.ILLUMINATED then illuminated
  else true

/-- Embedding of IRCameraController._check_illumination. The read of the
    infrared media frame and its is_illuminated flag is modelled as one
    input: error means the try block raised, ok none means the infrared
    media frame was None (no exception, so the except branch does not run),
    ok (some b) means the flag was read as b. -/
def check_illumination (s : ControllerState) (ir : Except Unit (Option Bool)) : ControllerState :=
  match ir with
  | Except.error _ => { s with is_illuminated := false }
  | Except.ok none => s
  | Except.ok (some b) => { s with is_illuminated := b }

/-- Embedding of the drain loop of _update_frame: while the queue is not
    empty, get_nowait discards the front element. -/
def queue_drain : List Frame → List Frame
  | [] => []
  | _ :: rest => queue_drain rest

/-- Embedding of Queue.put_nowait on a queue with the given maxsize: the
    element is appended when there is room, otherwise the Full exception is
    swallowed by the surrounding except and nothing changes. -/
def queue_put_nowait (maxsize : Nat) (q : List Frame) (f : Frame) : List Frame :=
  if q.length < maxsize then q ++ [f] else q

/-- Embedding of IRCameraController._update_frame: apply the colour mapping,
    store a copy as the last frame, append the BGR conversion to the video
    writer when recording, then drain the queue and put the new frame. -/
def update_frame (cv : CvOps) (s : ControllerState) (frame0 : Frame) : ControllerState :=
  let frame := apply_color_mapping cv s.mapping_mode frame0
  let s1 := { s with last_frame := some frame }
  let s2 :=
    match s1.is_recording, s1.video_writer with
    | true, some w =>
        let w2 := { w with frames := w.frames ++ [cvtColor_BGRA2BGR frame] }
        { s1 with video_writer := some w2 }
    | _, _ => s1
  { s2 with frame_queue := queue_put_nowait 2 (queue_drain s2.frame_queue) frame }

/-- Embedding of IRCameraController.get_frame: get_nowait from the queue,
    falling back to the last frame when the queue is empty. -/
def get_frame (s : ControllerState) : Option Frame × ControllerState :=
  match s.frame_queue with
  | [] => (s.last_frame, s)
  | f :: rest => (some f, { s with frame_queue := rest })

/-- Outcome of video_frame.software_bitmap and its numpy conversion: the
    bitmap can be absent, the conversion can raise (returning None), or it
    yields a frame. -/
inductive BitmapInput
  | absent
  | failed
  | converted (f : Frame)
deriving DecidableEq

/-- The video media frame of one acquired media frame: the illumination
    input for check_illumination and the bitmap input. -/
structure VideoMediaFrame where
  ir : Except Unit (Option Bool)
  bitmap : BitmapInput

/-- Result of reader.try_acquire_latest_frame together with its
    video_media_frame attribute: none models either no frame acquired or a
    None video media frame. -/
structure MediaFrame where
  video : Option VideoMediaFrame

/-- Embedding of IRCameraController._process_frame (the media frame close
    call releases an external resource and has no modelled state). -/
def process_frame (cv : CvOps) (s : ControllerState) (acquired : Option MediaFrame) : ControllerState :=
  match acquired with
  | none => s
  | some mf =>
    match mf.video with
    | none => s
    | some vf =>
      let s1 := check_illumination s vf.ir
      if ¬ should_display_frame s1.frame_filter s1.is_illuminated then s1
      else
        match vf.bitmap with
        | BitmapInput.absent => s1
        | BitmapInput.failed => s1
        | BitmapInput.converted f => update_frame cv s1 f

/-- Embedding of IRCameraController._on_frame_arrived: frames are discarded
    while not running; processing errors are swallowed (the model is total). -/
def on_frame_arrived (cv : CvOps) (s : ControllerState) (acquired : Option MediaFrame) : ControllerState :=
  if ¬ s.running then s else process_frame cv s acquired

/-- Embedding of IRCameraController.take_photo. The timestamp string is an
    external clock input. The controller state is not mutated; the returned
    list records the filesystem effects (makedirs and imwrite). -/
def take_photo (s : ControllerState) (save_dir : String) (timestamp : String) :
    Option String × List FsEffect :=
  match s.last_frame with
  | none => (none, [])
  | some f =>
    let filepath := save_dir ++ "/IR_Photo_" ++ timestamp ++ ".jpg"
    (some filepath, [FsEffect.makedirs save_dir, FsEffect.imwrite filepath (cvtColor_BGRA2BGR f)])

/-- Embedding of IRCameraController.start_recording. Integer division is
    Python floor division. Returns the path result, the new state and the
    filesystem effects. -/
def start_recording (s : ControllerState) (save_dir : String) (base_fps : Int)
    (timestamp : String) : Option String × ControllerState × List FsEffect :=
  if s.is_recording then (none, s, [])
  else
    let actual_fps : Int :=
      if s.frame_filter = IRFrameFilter.NONE then base_fps
      else max (Int.fdiv base_fps 2) 7
    let path := save_dir ++ "/IR_Video_" ++ timestamp ++ "_" ++ s.frame_filter.display_name ++ ".avi"
    let writer : VideoWriter := ⟨path, "XVID", actual_fps, (s.frame_width, s.frame_height), []⟩
    (some path,
     { s with video_path := some path, video_writer := some writer, is_recording := true },
     [FsEffect.makedirs save_dir])

/-- Embedding of IRCameraController.stop_recording: a no-op returning None
    when idle, otherwise release the writer, clear the path and return it. -/
def stop_recording (s : ControllerState) : Option String × ControllerState :=
  if ¬ s.is_recording then (none, s)
  else
    (s.video_path,
     { s with is_recording := false, video_writer := none, video_path := none })

/-- Embedding of IRCameraController.start: fails when no frame reader is
    attached, otherwise sets running (the reader start is external). -/
def start_ctrl (s : ControllerState) : Bool × ControllerState :=
  if s.frame_reader = none then (false, s)
  else (true, { s with running := true })

/-- Embedding of IRCameraController.stop: clear running, stop any active
    recording, drop the frame reader and the media capture handle. -/
def stop_ctrl (s : ControllerState) : ControllerState :=
  let s1 := { s with running := false }
  let s2 := if s1.is_recording then (stop_recording s1).2 else s1
  let s3 := if s2.frame_reader ≠ none then { s2 with frame_reader := none } else s2
  { s3 with media_capture := none }

/-- A supported capture format of a frame source (video_format width and
    height). -/
structure FrameFormat where
  width : Nat
  height : Nat
deriving DecidableEq

/-- Behaviour of the capture backend during one select_device call: whether
    initialize succeeds in exclusive and in shared mode, whether
    set_format_async succeeds, and the frame sources with their supported
    formats in iteration order. -/
structure BackendEnv where
  init_exclusive_ok : Bool
  init_shared_ok : Bool
  set_format_ok : Bool
  frame_sources : List (List FrameFormat)
deriving DecidableEq

/-- Result of select_device: a returned bool or a propagated exception. -/
inductive SelectOutcome
  | ok (b : Bool)
  | exn
deriving DecidableEq

/-- Embedding of the Python builtin max with a key function on a nonempty
    list: the first element of maximal key wins (later elements replace the
    running best only on strictly greater key). -/
def py_max_key (key : FrameFormat → Nat) : List FrameFormat → Option FrameFormat
  | [] => none
  | x :: xs => some (xs.foldl (fun best y => if key y > key best then y else best) x)

/-- Embedding of IRCameraController.select_device. An out-of-range index
    returns False at once; otherwise any existing session is stopped, the
    device index is committed, the capture is initialized (falling back from
    exclusive to shared, a double failure propagating as an exception), the
    first frame source is taken, the best format (maximal width times
    height) is applied when formats exist, and the frame reader is created. -/
def select_device (env : BackendEnv) (s : ControllerState) (index : Int) (exclusive : Bool) :
    SelectOutcome × ControllerState :=
  if index < 0 ∨ (s.devices.length : Int) ≤ index then (SelectOutcome.ok false, s)
  else
    let s1 := if s.frame_reader ≠ none then stop_ctrl s else s
    let s2 := { s1 with current_device_index := index.toNat, media_capture := some () }
    let init_ok := if exclusive then env.init_exclusive_ok || env.init_shared_ok
                   else env.init_shared_ok
    if ¬ init_ok then (SelectOutcome.exn, s2)
    else
      match env.frame_sources with
      | [] => (SelectOutcome.ok false, s2)
      | fmts :: _ =>
        match py_max_key (fun f => f.width * f.height) fmts with
        | none => (SelectOutcome.ok true, { s2 with frame_reader := some () })
        | some best =>
          if ¬ env.set_format_ok then (SelectOutcome.exn, s2)
          else (SelectOutcome.ok true,
                { s2 with frame_width := best.width, frame_height := best.height,
                          frame_reader := some () })

/-- Trivial instantiation of the external OpenCV primitives, used to
    instantiate theorems at concrete inputs. -/
def trivialCv : CvOps := ⟨fun _ => 0, fun _ => ⟨0, 0, 0⟩, fun _ => ⟨0, 0, 0⟩⟩

/-- Repeated assignment through the frame_filter property setter. -/
def apply_filter_sets (s : ControllerState) (vs : List IRFrameFilter) : ControllerState :=
  vs.foldl set_frame_filter s

lemma apply_filter_sets_fields (vs : List IRFrameFilter) (s : ControllerState) :
    (apply_filter_sets s vs).video_writer = s.video_writer ∧
    (apply_filter_sets s vs).video_path = s.video_path ∧
    (apply_filter_sets s vs).is_recording = s.is_recording := by
  induction vs generalizing s with
  | nil => exact ⟨rfl, rfl, rfl⟩
  | cons v vs ih => exact ih (set_frame_filter s v)

/-- The drain loop of _update_frame always empties the queue. -/
lemma queue_drain_eq_nil (q : List Frame) : queue_drain q = [] := by
  induction q with
  | nil => rfl
  | cons f rest ih => exact ih

lemma update_frame_fields (cv : CvOps) (s : ControllerState) (f : Frame) :
    (update_frame cv s f).frame_queue = [apply_color_mapping cv s.mapping_mode f] ∧
    (update_frame cv s f).last_frame = some (apply_color_mapping cv s.mapping_mode f) ∧
    (update_frame cv s f).mapping_mode = s.mapping_mode ∧
    (update_frame cv s f).is_recording = s.is_recording ∧
    (update_frame cv s f).video_path = s.video_path ∧
    (update_frame cv s f).video_writer.isSome = s.video_writer.isSome := by
  simp only [update_frame]
  split <;>
    simp_all [queue_drain_eq_nil, queue_put_nowait]

/-- Specification truth table of section 4.4, stated from the words of the
    spec: NONE always forwards, RAW_ONLY forwards iff not illuminated,
    ILLUMINATED_ONLY forwards iff illuminated. -/
def spec_should_forward (mode : IRFrameFilter) (illuminated : Bool) : Bool :=
  match mode with
  | IRFrameFilter.NONE => true
  | IRFrameFilter.RAW => !illuminated
  | IRFrameFilter.ILLUMINATED => illuminated

/-- C1: for every filter mode and illumination flag (6 combinations) the
    frame filter decision of _should_display_frame matches the spec truth
    table: NONE always forwards, RAW forwards iff not illuminated,
    ILLUMINATED forwards iff illuminated. -/
theorem C1_filter_truth_table :
    ∀ (mode : IRFrameFilter) (illuminated : Bool),
      should_display_frame mode illuminated = spec_should_forward mode illuminated := by
  intro mode illuminated
  cases mode <;> cases illuminated <;> rfl

/-- C6: applying the colour mapping with mode NONE returns the input frame
    unchanged, for every frame and every behaviour of the external OpenCV
    primitives. -/
theorem C6_mapping_none_identity :
    ∀ (cv : CvOps) (frame : Frame),
      apply_color_mapping cv IRMappingMode.NONE frame = frame := by
  intro cv frame
  rfl

/-- C8 counterexample: with the sticky illumination flag left true by a
    previous frame and the infrared media frame absent on the current frame
    (the ok none input, which raises no exception), check_illumination keeps
    the flag true instead of setting it to false, refuting the claim that an
    absent infrared sub-frame classifies the frame as not-illuminated. -/
theorem C8_counterexample :
    ¬ ((check_illumination { initState with is_illuminated := true }
        (Except.ok none)).is_illuminated = false) := by
  decide

/-- C8 amended: when reading the per-frame illumination flag raises an
    exception the state is set to not-illuminated; when the infrared media
    frame is absent without an exception the whole state, in particular the
    sticky illumination flag, is left unchanged; when the flag is read
    successfully the state takes its value. -/
theorem C8_amended_illumination :
    ∀ (s : ControllerState) (b : Bool),
      (check_illumination s (Except.error ())).is_illuminated = false ∧
      check_illumination s (Except.ok none) = s ∧
      (check_illumination s (Except.ok (some b))).is_illuminated = b := by
  intro s b
  exact ⟨rfl, rfl, rfl⟩

/-- C2: for every non-recording state, every base_fps and every directory
    and timestamp, start_recording opens the video writer at rate base_fps
    when the active filter mode is NONE and at max(base_fps fdiv 2, 7)
    otherwise, 7 being the hard floor in the code. -/
theorem C2_recording_fps (s : ControllerState) (save_dir timestamp : String) (base_fps : Int)
    (h : s.is_recording = false) :
    ∃ w : VideoWriter,
      (start_recording s save_dir base_fps timestamp).2.1.video_writer = some w ∧
      w.fps = (if s.frame_filter = IRFrameFilter.NONE then base_fps
               else max (Int.fdiv base_fps 2) 7) := by
  simp only [start_recording, h]
  exact ⟨_, rfl, rfl⟩

/-- Witness for C2 at the initial state with base_fps 15: the filter is NONE
    there, so the chosen rate reduces to 15. -/
theorem C2_recording_fps_witness :
    initState.is_recording = false ∧
    (∃ w : VideoWriter,
      (start_recording initState "videos" 15 "t").2.1.video_writer = some w ∧
      w.fps = (if initState.frame_filter = IRFrameFilter.NONE then (15 : Int)
               else max (Int.fdiv 15 2) 7)) :=
  ⟨rfl, C2_recording_fps initState "videos" "t" 15 rfl⟩

/-- C3: once start_recording has succeeded (returned a path), any sequence
    of assignments through the frame_filter property setter, which is how
    next() reaches the controller, leaves the open video writer (hence its
    rate), the recorded path and the recording flag unchanged; only
    stop_recording can release them. -/
theorem C3_rate_fixed_mid_recording (s : ControllerState) (save_dir timestamp : String)
    (base_fps : Int) (vs : List IRFrameFilter) (p : String)
    (h : (start_recording s save_dir base_fps timestamp).1 = some p) :
    (apply_filter_sets (start_recording s save_dir base_fps timestamp).2.1 vs).video_writer
      = (start_recording s save_dir base_fps timestamp).2.1.video_writer ∧
    (apply_filter_sets (start_recording s save_dir base_fps timestamp).2.1 vs).video_path
      = (start_recording s save_dir base_fps timestamp).2.1.video_path ∧
    (apply_filter_sets (start_recording s save_dir base_fps timestamp).2.1 vs).is_recording
      = true := by
  have hrec : s.is_recording = false := by
    by_contra hc
    rw [Bool.not_eq_false] at hc
    simp [start_recording, hc] at h
  have hf := apply_filter_sets_fields vs (start_recording s save_dir base_fps timestamp).2.1
  refine ⟨hf.1, hf.2.1, ?_⟩
  rw [hf.2.2]
  simp [start_recording, hrec]

/-- Witness for C3 at the initial state, cycling the filter through every
    value returned by next(). -/
theorem C3_rate_fixed_mid_recording_witness :
    (start_recording initState "videos" 15 "t").1
      = some ("videos" ++ "/IR_Video_" ++ "t" ++ "_" ++ IRFrameFilter.NONE.display_name ++ ".avi") ∧
    ((apply_filter_sets (start_recording initState "videos" 15 "t").2.1
        [IRFrameFilter.NONE.next, IRFrameFilter.NONE.next.next,
         IRFrameFilter.NONE.next.next.next]).video_writer
      = (start_recording initState "videos" 15 "t").2.1.video_writer ∧
     (apply_filter_sets (start_recording initState "videos" 15 "t").2.1
        [IRFrameFilter.NONE.next, IRFrameFilter.NONE.next.next,
         IRFrameFilter.NONE.next.next.next]).video_path
      = (start_recording initState "videos" 15 "t").2.1.video_path ∧
     (apply_filter_sets (start_recording initState "videos" 15 "t").2.1
        [IRFrameFilter.NONE.next, IRFrameFilter.NONE.next.next,
         IRFrameFilter.NONE.next.next.next]).is_recording = true) :=
  ⟨rfl, C3_rate_fixed_mid_recording initState "videos" "t" 15 _ _ rfl⟩

/-- One mutation of the controller attribute state: any public operation or
    callback of IRCameraController that assigns attributes. -/
inductive Step (cv : CvOps) : ControllerState → ControllerState → Prop
  | set_filter (s : ControllerState) (v : IRFrameFilter) : Step cv s (set_frame_filter s v)
  | set_mapping (s : ControllerState) (v : IRMappingMode) : Step cv s (set_mapping_mode s v)
  | find_cameras (s : ControllerState) (d : List (String × Bool)) :
      Step cv s (find_ir_cameras s d)
  | sel_device (s : ControllerState) (env : BackendEnv) (i : Int) (e : Bool) :
      Step cv s (select_device env s i e).2
  | start (s : ControllerState) : Step cv s (start_ctrl s).2
  | stop (s : ControllerState) : Step cv s (stop_ctrl s)
  | frame_arrived (s : ControllerState) (m : Option MediaFrame) :
      Step cv s (on_frame_arrived cv s m)
  | read_frame (s : ControllerState) : Step cv s (get_frame s).2
  | start_rec (s : ControllerState) (d : String) (fps : Int) (ts : String) :
      Step cv s (start_recording s d fps ts).2.1
  | stop_rec (s : ControllerState) : Step cv s (stop_recording s).2

/-- States reachable from a freshly constructed controller by any sequence
    of operations. -/
def Reachable (cv : CvOps) (s : ControllerState) : Prop :=
  Relation.ReflTransGen (Step cv) initState s

/-- Recording coupling invariant of the controller: the video writer and
    the video path are held exactly while is_recording is set. -/
def RecInv (s : ControllerState) : Prop :=
  s.video_writer.isSome = s.is_recording ∧ s.video_path.isSome = s.is_recording

lemma option_eq_none_of_isSome_eq_false {α : Type} {o : Option α}
    (h : o.isSome = false) : o = none := by
  cases o
  · rfl
  · simp at h

lemma recInv_of_fields {s t : ControllerState} (h : RecInv s)
    (h1 : t.is_recording = s.is_recording)
    (h2 : t.video_writer.isSome = s.video_writer.isSome)
    (h3 : t.video_path = s.video_path) : RecInv t := by
  unfold RecInv at h ⊢
  rw [h1, h2, h3]
  exact h

lemma stop_recording_recInv {s : ControllerState} (h : RecInv s) :
    RecInv (stop_recording s).2 := by
  unfold stop_recording
  split
  · exact h
  · exact ⟨rfl, rfl⟩

lemma stop_ctrl_fields {s : ControllerState} (h : RecInv s) :
    (stop_ctrl s).is_recording = false ∧ (stop_ctrl s).video_writer = none ∧
    (stop_ctrl s).video_path = none ∧ (stop_ctrl s).frame_reader = none ∧
    (stop_ctrl s).media_capture = none ∧ (stop_ctrl s).running = false := by
  obtain ⟨h1, h2⟩ := h
  by_cases hr : s.is_recording = true
  · cases hfr : s.frame_reader <;> simp [stop_ctrl, stop_recording, hr, hfr]
  · rw [Bool.not_eq_true] at hr
    have hw : s.video_writer = none := option_eq_none_of_isSome_eq_false (by rw [h1, hr])
    have hp : s.video_path = none := option_eq_none_of_isSome_eq_false (by rw [h2, hr])
    cases hfr : s.frame_reader <;> simp [stop_ctrl, stop_recording, hr, hfr, hw, hp]

lemma stop_ctrl_recInv {s : ControllerState} (h : RecInv s) : RecInv (stop_ctrl s) := by
  obtain ⟨f1, f2, f3, _⟩ := stop_ctrl_fields h
  unfold RecInv
  rw [f1, f2, f3]
  exact ⟨rfl, rfl⟩

lemma start_ctrl_recInv {s : ControllerState} (h : RecInv s) : RecInv (start_ctrl s).2 := by
  unfold start_ctrl
  split
  · exact h
  · exact recInv_of_fields h rfl rfl rfl

lemma start_recording_recInv {s : ControllerState} (h : RecInv s) (d ts : String)
    (fps : Int) : RecInv (start_recording s d fps ts).2.1 := by
  unfold start_recording
  split
  · exact h
  · exact ⟨rfl, rfl⟩

lemma update_frame_recInv (cv : CvOps) {s : ControllerState} (h : RecInv s) (f : Frame) :
    RecInv (update_frame cv s f) := by
  have hf := update_frame_fields cv s f
  exact recInv_of_fields h hf.2.2.2.1 hf.2.2.2.2.2 hf.2.2.2.2.1

lemma check_illumination_recInv {s : ControllerState} (h : RecInv s)
    (ir : Except Unit (Option Bool)) : RecInv (check_illumination s ir) := by
  cases ir with
  | error e => exact recInv_of_fields h rfl rfl rfl
  | ok o =>
    cases o with
    | none => exact h
    | some b => exact recInv_of_fields h rfl rfl rfl

lemma process_frame_recInv (cv : CvOps) {s : ControllerState} (h : RecInv s)
    (m : Option MediaFrame) : RecInv (process_frame cv s m) := by
  cases m with
  | none => exact h
  | some mf =>
    cases hv : mf.video with
    | none => simpa [process_frame, hv] using h
    | some vf =>
      simp only [process_frame, hv]
      split
      · exact check_illumination_recInv h vf.ir
      · cases hbm : vf.bitmap with
        | absent => exact check_illumination_recInv h vf.ir
        | failed => exact check_illumination_recInv h vf.ir
        | converted f => exact update_frame_recInv cv (check_illumination_recInv h vf.ir) f

lemma on_frame_arrived_recInv (cv : CvOps) {s : ControllerState} (h : RecInv s)
    (m : Option MediaFrame) : RecInv (on_frame_arrived cv s m) := by
  unfold on_frame_arrived
  split
  · exact h
  · exact process_frame_recInv cv h m

lemma get_frame_recInv {s : ControllerState} (h : RecInv s) : RecInv (get_frame s).2 := by
  unfold get_frame
  split
  · exact h
  · exact recInv_of_fields h rfl rfl rfl

lemma select_device_recInv (env : BackendEnv) {s : ControllerState} (h : RecInv s)
    (i : Int) (e : Bool) : RecInv (select_device env s i e).2 := by
  simp only [select_device]
  (repeat' split) <;>
    first
      | exact h
      | exact recInv_of_fields (stop_ctrl_recInv h) rfl rfl rfl

lemma reachable_recInv {cv : CvOps} {s : ControllerState} (h : Reachable cv s) :
    RecInv s := by
  induction h with
  | refl => exact ⟨rfl, rfl⟩
  | tail hab hstep ih =>
    cases hstep with
    | set_filter v => exact recInv_of_fields ih rfl rfl rfl
    | set_mapping v => exact recInv_of_fields ih rfl rfl rfl
    | find_cameras d => exact recInv_of_fields ih rfl rfl rfl
    | sel_device env i e => exact select_device_recInv env ih i e
    | start => exact start_ctrl_recInv ih
    | stop => exact stop_ctrl_recInv ih
    | frame_arrived m => exact on_frame_arrived_recInv cv ih m
    | read_frame => exact get_frame_recInv ih
    | start_rec d fps ts => exact start_recording_recInv ih d ts fps
    | stop_rec => exact stop_recording_recInv ih

/-- C9: from every reachable controller state, stop leaves no recording
    active (stop_recording has run: the recording flag is cleared, the video
    writer is released and the path cleared) and closes the capture session
    (frame reader and media capture handle cleared, running cleared). -/
theorem C9_stop_closes_everything (cv : CvOps) (s : ControllerState)
    (h : Reachable cv s) :
    (stop_ctrl s).is_recording = false ∧ (stop_ctrl s).video_writer = none ∧
    (stop_ctrl s).video_path = none ∧ (stop_ctrl s).frame_reader = none ∧
    (stop_ctrl s).media_capture = none ∧ (stop_ctrl s).running = false :=
  stop_ctrl_fields (reachable_recInv h)

/-- Witness for C9 at the freshly constructed controller state. -/
theorem C9_stop_closes_everything_witness :
    (stop_ctrl initState).is_recording = false ∧ (stop_ctrl initState).video_writer = none ∧
    (stop_ctrl initState).video_path = none ∧ (stop_ctrl initState).frame_reader = none ∧
    (stop_ctrl initState).media_capture = none ∧ (stop_ctrl initState).running = false :=
  C9_stop_closes_everything trivialCv initState Relation.ReflTransGen.refl

/-- C5: recording-control misuse is a non-fatal no-op signal. Calling
    stop_recording while idle returns none and changes nothing; calling it
    while active returns the stored recording path (which is present in
    every reachable recording state) and transitions to idle with the writer
    released; calling start_recording while already recording returns none
    and leaves the state and the filesystem untouched. -/
theorem C5_recording_misuse (cv : CvOps) (s : ControllerState)
    (save_dir timestamp : String) (base_fps : Int) :
    (s.is_recording = false → stop_recording s = (none, s)) ∧
    (s.is_recording = true →
      (stop_recording s).1 = s.video_path ∧
      (stop_recording s).2.is_recording = false ∧
      (stop_recording s).2.video_writer = none ∧
      (Reachable cv s → ∃ p, (stop_recording s).1 = some p)) ∧
    (s.is_recording = true →
      start_recording s save_dir base_fps timestamp = (none, s, [])) := by
  refine ⟨?_, ?_, ?_⟩
  · intro h
    simp [stop_recording, h]
  · intro h
    refine ⟨by simp [stop_recording, h], by simp [stop_recording, h],
            by simp [stop_recording, h], ?_⟩
    intro hr
    obtain ⟨_, h2⟩ := reachable_recInv hr
    rw [h] at h2
    obtain ⟨p, hp⟩ := Option.isSome_iff_exists.mp h2
    exact ⟨p, by simp [stop_recording, h, hp]⟩
  · intro h
    simp [start_recording, h]

/-- Witness for C5: the idle branch at the fresh state and the active
    branches at the state reached by one successful start_recording. -/
theorem C5_recording_misuse_witness :
    stop_recording initState = (none, initState) ∧
    (stop_recording (start_recording initState "videos" 15 "t").2.1).1
      = (start_recording initState "videos" 15 "t").2.1.video_path ∧
    (∃ p, (stop_recording (start_recording initState "videos" 15 "t").2.1).1 = some p) ∧
    start_recording (start_recording initState "videos" 15 "t").2.1 "v" 10 "u"
      = (none, (start_recording initState "videos" 15 "t").2.1, []) := by
  have hreach : Reachable trivialCv (start_recording initState "videos" 15 "t").2.1 :=
    Relation.ReflTransGen.single (Step.start_rec initState "videos" 15 "t")
  have h1 := C5_recording_misuse trivialCv initState "videos" "t" 15
  have h2 := C5_recording_misuse trivialCv (start_recording initState "videos" 15 "t").2.1
    "v" "u" 10
  exact ⟨h1.1 rfl, (h2.2.1 rfl).1, (h2.2.1 rfl).2.2.2 hreach, h2.2.2 rfl⟩

/-- C7: selecting an index outside the currently discovered device list
    returns the failure result and leaves the whole prior state, in
    particular the session handles and current_device_index, untouched;
    selecting an in-range index with a cooperating backend (initialization
    succeeds in the requested or fallback sharing mode, at least one frame
    source exists and set_format succeeds) returns True and afterwards
    current_device_index equals that index. -/
theorem C7_select_device (env : BackendEnv) (s : ControllerState) (index : Int)
    (exclusive : Bool) :
    ((index < 0 ∨ (s.devices.length : Int) ≤ index) →
       select_device env s index exclusive = (SelectOutcome.ok false, s)) ∧
    (¬ (index < 0 ∨ (s.devices.length : Int) ≤ index) →
     (if exclusive then env.init_exclusive_ok || env.init_shared_ok
      else env.init_shared_ok) = true →
     env.set_format_ok = true →
     env.frame_sources ≠ [] →
       (select_device env s index exclusive).1 = SelectOutcome.ok true ∧
       (select_device env s index exclusive).2.current_device_index = index.toNat) := by
  constructor
  · intro h
    simp only [select_device, if_pos h]
  · intro h hinit hfmt hsrc
    simp only [select_device, if_neg h]
    simp only [hinit]
    cases hs : env.frame_sources with
    | nil => exact absurd hs hsrc
    | cons fmts rest =>
      cases hk : py_max_key (fun f => f.width * f.height) fmts with
      | none => simp [hk]
      | some best => simp [hk, hfmt]

/-- Witness for C7: with device list [A, B], selecting index 5 fails and
    changes nothing, selecting index 1 succeeds and sets the index to 1. -/
theorem C7_select_device_witness :
    (select_device ⟨true, true, true, [[⟨640, 480⟩]]⟩
        ({ initState with devices := ["A", "B"] }) 5 false
      = (SelectOutcome.ok false, { initState with devices := ["A", "B"] })) ∧
    ((select_device ⟨true, true, true, [[⟨640, 480⟩]]⟩
        ({ initState with devices := ["A", "B"] }) 1 false).1 = SelectOutcome.ok true ∧
     (select_device ⟨true, true, true, [[⟨640, 480⟩]]⟩
        ({ initState with devices := ["A", "B"] }) 1 false).2.current_device_index
       = Int.toNat 1) := by
  constructor
  · exact (C7_select_device ⟨true, true, true, [[⟨640, 480⟩]]⟩
      ({ initState with devices := ["A", "B"] }) 5 false).1 (by decide)
  · exact (C7_select_device ⟨true, true, true, [[⟨640, 480⟩]]⟩
      ({ initState with devices := ["A", "B"] }) 1 false).2
      (by decide) (by decide) (by decide) (by decide)

/-- C10: take_photo returns none exactly when the last-known frame is
    absent (no frame has ever been published by the pipeline), and in that
    case it performs no filesystem effect at all (and the embedding shows it
    never mutates the controller state); when a last frame exists it returns
    the path of the written photo file, which is the target of the imwrite
    effect. -/
theorem C10_take_photo (s : ControllerState) (save_dir timestamp : String) :
    ((take_photo s save_dir timestamp).1 = none ↔ s.last_frame = none) ∧
    (s.last_frame = none → take_photo s save_dir timestamp = (none, [])) ∧
    (∀ f, s.last_frame = some f →
      (take_photo s save_dir timestamp).1
          = some (save_dir ++ "/IR_Photo_" ++ timestamp ++ ".jpg") ∧
      (take_photo s save_dir timestamp).2
          = [FsEffect.makedirs save_dir,
             FsEffect.imwrite (save_dir ++ "/IR_Photo_" ++ timestamp ++ ".jpg")
               (cvtColor_BGRA2BGR f)]) := by
  refine ⟨?_, ?_, ?_⟩
  · cases hl : s.last_frame <;> simp [take_photo, hl]
  · intro hl
    simp [take_photo, hl]
  · intro f hl
    simp [take_photo, hl]

/-- Witness for C10: the fresh state has no last frame and yields no path
    and no effect; a state holding a one-pixel frame yields the photo path. -/
theorem C10_take_photo_witness :
    take_photo initState "photos" "t" = (none, []) ∧
    (take_photo ({ initState with last_frame := some [[⟨1, 2, 3, 4⟩]] }) "photos" "t").1
      = some ("photos" ++ "/IR_Photo_" ++ "t" ++ ".jpg") := by
  constructor
  · exact (C10_take_photo initState "photos" "t").2.1 rfl
  · exact ((C10_take_photo ({ initState with last_frame := some [[⟨1, 2, 3, 4⟩]] })
      "photos" "t").2.2 [[⟨1, 2, 3, 4⟩]] rfl).1

/-- Operations touching the latest-frame buffer: a producer write (the
    publish part of _update_frame) or a consumer get_frame call. -/
inductive BufOp
  | write (f : Frame)
  | read

/-- Running any interleaving of buffer operations from a state. -/
def run_buf (cv : CvOps) : ControllerState → List BufOp → ControllerState
  | s, [] => s
  | s, BufOp.write f :: rest => run_buf cv (update_frame cv s f) rest
  | s, BufOp.read :: rest => run_buf cv (get_frame s).2 rest

/-- Result of the n-th consecutive get_frame call (counting from zero) with
    no intervening write. -/
def read_iter : Nat → ControllerState → Option Frame × ControllerState
  | 0, s => get_frame s
  | n + 1, s => read_iter n (get_frame s).2

lemma get_frame_last (s : ControllerState) : (get_frame s).2.last_frame = s.last_frame := by
  unfold get_frame
  split <;> rfl

lemma read_iter_of_empty (x : Frame) :
    ∀ (n : Nat) (t : ControllerState), t.frame_queue = [] → t.last_frame = some x →
      (read_iter n t).1 = some x := by
  intro n
  induction n with
  | zero =>
    intro t hq hl
    show (get_frame t).1 = some x
    simp [get_frame, hq, hl]
  | succ n ih =>
    intro t hq hl
    show (read_iter n (get_frame t).2).1 = some x
    have h2 : (get_frame t).2 = t := by simp [get_frame, hq]
    rw [h2]
    exact ih t hq hl

lemma read_iter_singleton (x : Frame) (t : ControllerState)
    (hq : t.frame_queue = [x]) (hl : t.last_frame = some x) :
    ∀ n, (read_iter n t).1 = some x := by
  intro n
  cases n with
  | zero =>
    show (get_frame t).1 = some x
    simp [get_frame, hq]
  | succ n =>
    show (read_iter n (get_frame t).2).1 = some x
    have hq2 : (get_frame t).2.frame_queue = [] := by simp [get_frame, hq]
    have hl2 : (get_frame t).2.last_frame = some x := by rw [get_frame_last, hl]
    exact read_iter_of_empty x n (get_frame t).2 hq2 hl2

lemma run_buf_preserves_last (cv : CvOps) :
    ∀ (ops : List BufOp) (s : ControllerState), s.last_frame ≠ none →
      (run_buf cv s ops).last_frame ≠ none := by
  intro ops
  induction ops with
  | nil => intro s h; exact h
  | cons op rest ih =>
    intro s h
    cases op with
    | write f =>
      show (run_buf cv (update_frame cv s f) rest).last_frame ≠ none
      apply ih
      rw [(update_frame_fields cv s f).2.1]
      simp
    | read =>
      show (run_buf cv (get_frame s).2 rest).last_frame ≠ none
      apply ih
      rw [get_frame_last]
      exact h

lemma run_buf_write_last (cv : CvOps) :
    ∀ (ops : List BufOp) (s : ControllerState), (∃ f, BufOp.write f ∈ ops) →
      (run_buf cv s ops).last_frame ≠ none := by
  intro ops
  induction ops with
  | nil =>
    intro s h
    obtain ⟨f, hf⟩ := h
    simp at hf
  | cons op rest ih =>
    intro s h
    cases op with
    | write f =>
      show (run_buf cv (update_frame cv s f) rest).last_frame ≠ none
      apply run_buf_preserves_last cv rest
      rw [(update_frame_fields cv s f).2.1]
      simp
    | read =>
      obtain ⟨f, hf⟩ := h
      show (run_buf cv (get_frame s).2 rest).last_frame ≠ none
      apply ih
      refine ⟨f, ?_⟩
      cases hf with
      | tail b h2 => exact h2

lemma get_frame_ne_none_of_last {t : ControllerState} (h : t.last_frame ≠ none) :
    (get_frame t).1 ≠ none := by
  unfold get_frame
  split
  · exact h
  · simp

/-- C4: single-slot, drop-oldest, last-value semantics of the latest-frame
    buffer. After write(A) then write(B) with no intervening read, every
    later read (the first, the second, and all following ones) returns the
    frame published for B and never A, so A is unobservable; when the colour
    mapping is NONE the published frame is B itself. After any interleaving
    of writes and reads containing at least one write, a read never returns
    the no-frame-yet result; on a fresh controller, before the first write,
    it does. Reads are a total function of the state (they never block). -/
theorem C4_buffer_semantics (cv : CvOps) (s s0 : ControllerState) (A B : Frame)
    (ops : List BufOp) :
    (∀ n, (read_iter n (update_frame cv (update_frame cv s A) B)).1
        = some (apply_color_mapping cv s.mapping_mode B)) ∧
    (s.mapping_mode = IRMappingMode.NONE →
      ∀ n, (read_iter n (update_frame cv (update_frame cv s A) B)).1 = some B) ∧
    ((∃ f, BufOp.write f ∈ ops) → (get_frame (run_buf cv s0 ops)).1 ≠ none) ∧
    (get_frame initState).1 = none := by
  have h1 := update_frame_fields cv s A
  have h2 := update_frame_fields cv (update_frame cv s A) B
  rw [h1.2.2.1] at h2
  have hall : ∀ n, (read_iter n (update_frame cv (update_frame cv s A) B)).1
      = some (apply_color_mapping cv s.mapping_mode B) :=
    read_iter_singleton (apply_color_mapping cv s.mapping_mode B)
      (update_frame cv (update_frame cv s A) B) h2.1 h2.2.1
  refine ⟨hall, ?_, ?_, rfl⟩
  · intro hm n
    have := hall n
    rwa [hm, C6_mapping_none_identity cv B] at this
  · intro hw
    exact get_frame_ne_none_of_last (run_buf_write_last cv ops s0 hw)

/-- Witness for C4 at the fresh state with concrete one-pixel frames and an
    operation list containing a single write. -/
theorem C4_buffer_semantics_witness :
    (∀ n, (read_iter n (update_frame trivialCv
        (update_frame trivialCv initState [[⟨1, 1, 1, 1⟩]]) [[⟨2, 2, 2, 2⟩]])).1
      = some [[⟨2, 2, 2, 2⟩]]) ∧
    (get_frame (run_buf trivialCv initState [BufOp.write [[⟨3, 3, 3, 3⟩]]])).1 ≠ none ∧
    (get_frame initState).1 = none := by
  have h := C4_buffer_semantics trivialCv initState initState
    [[⟨1, 1, 1, 1⟩]] [[⟨2, 2, 2, 2⟩]] [BufOp.write [[⟨3, 3, 3, 3⟩]]]
  exact ⟨h.2.1 rfl, h.2.2.1 ⟨[[⟨3, 3, 3, 3⟩]], by simp⟩, h.2.2.2⟩
